import Mathlib

/-!
Shallow embedding of the FLP attendance-verification service (`src/app.py`)
and proofs about its location- and face-verification handlers.

The active module-level code of `app.py` defines a class-location registry,
a radius threshold, a reference-image path, and two Flask request handlers:
`handle_verify_location` and `handle_verify_face`.  Requests are JSON
dictionaries; `data.get(key)` yields `None` for a missing key, and Python
truthiness (`not all([...])`, `if not image_data_url`) treats `None`, `0`,
`0.0` and `""` as falsy.  We model JSON field values by `JVal`, Python
floats by `ℚ` at the request layer and `ℝ` inside the distance computation,
a raised exception by `Except.error`, and the filesystem seen by the face
handler as a `Finset String` of existing file paths.
-/

namespace FLP

/-- A JSON field value as the handlers consume it: absent/null, a number,
or a string.  (The claims under study involve no other JSON shapes.) -/
inductive JVal
  | null
  | num (x : ℚ)
  | str (s : String)
deriving DecidableEq

/-- Python truthiness of a field value: `None`, `0`/`0.0` and `""` are
falsy, everything else truthy.  This is the test `all([...])` applies to
each element in `app.py` line 211. -/
def truthy : JVal → Bool
  | JVal.null => false
  | JVal.num x => if x = 0 then false else true
  | JVal.str s => if s = "" then false else true

/-- One entry of `CLASS_LOCATIONS` (`app.py` lines 161-167). -/
structure ClassInfo where
  name : String
  lat : ℚ
  lon : ℚ
deriving DecidableEq

/-- The class registry of `app.py` lines 161-167: a single class `CS101`
at (16.7953091, 80.8228997). -/
def CLASS_LOCATIONS : List (String × ClassInfo) :=
  [("CS101", ⟨"Computer Science Building, Room 101", 16.7953091, 80.8228997⟩)]

/-- The radius threshold of `app.py` line 169. -/
def LOCATION_RADIUS_METERS : ℚ := 38061

/-- The reference-image path of `app.py` line 171. -/
def REFERENCE_IMG_PATH : String := "reference.jpg"

/-- `CLASS_LOCATIONS.get(class_id)`: a dictionary lookup keyed by strings;
any non-string key is absent from the dictionary. -/
def lookupClass : JVal → Option ClassInfo
  | JVal.str s => CLASS_LOCATIONS.lookup s
  | _ => none

/-- The body of a POST to `/verify-location`: the three fields read by
`data.get` on `app.py` lines 207-209 (absent keys become `JVal.null`). -/
structure LocRequest where
  class_id : JVal
  latitude : JVal
  longitude : JVal

/-- The tri-state `status` field of every JSON envelope the handlers
return. -/
inductive Status
  | success
  | failure
  | error
deriving DecidableEq

/-- The distinct `message` strings of `app.py`, with the reported distance
carried as a value where the code interpolates `{distance:.2f}`. -/
inductive Msg
  | missingLocationData
  | classNotFound (cid : JVal)
  | locationVerified (d : ℝ)
  | attendanceDenied (d : ℝ)
  | noImageData
  | referenceMissing
  | faceVerified
  | faceNoMatch
  | couldNotProcess

/-- A JSON response envelope together with its HTTP status code
(Flask `jsonify` alone returns 200). -/
structure Response where
  status : Status
  http : Nat
  msg : Msg

/-- Observable side effects of the location handler, recorded in order. -/
inductive Effect
  | registryLookup
  | distanceComputation
deriving DecidableEq

/-- An exception escaping a handler (the location handler has no
try/except, so `float()` failures propagate). -/
inductive PyExn
  | valueError
deriving DecidableEq

/-- Python `float(v)` applied to a request field (`app.py` line 219):
a number converts; a string parses by the semantics `pf` of the runtime
string-to-float parser, `none` meaning `ValueError`. -/
def floatConv (pf : String → Option ℚ) : JVal → Option ℚ
  | JVal.num x => some x
  | JVal.str s => pf s
  | JVal.null => none

/-- Degrees to radians. -/
noncomputable def radians (d : ℝ) : ℝ := d * Real.pi / 180

/-- The haversine of the central angle between the two points: the value
`d = sin²(Δφ/2) + cos φ1 · cos φ2 · sin²(Δλ/2)` both the library and the
spec formula start from. -/
noncomputable def hav (lat1 lon1 lat2 lon2 : ℝ) : ℝ :=
  Real.sin ((radians lat2 - radians lat1) / 2) ^ 2 +
    Real.cos (radians lat1) * Real.cos (radians lat2) *
      Real.sin ((radians lon2 - radians lon1) / 2) ^ 2

/-- Mean Earth radius in meters used by the `haversine` PyPI package
(6371.0088 km, converted by `Unit.METERS`). -/
def AVG_EARTH_RADIUS_METERS : ℚ := 6371008.8

/-- Modelled from the spec: the external geo-distance capability
`haversine(p1, p2, unit=Unit.METERS)` called on `app.py` line 220.  The
library itself is not part of this repository; per the spec it computes
the great-circle distance `2·R·asin(√d)` from the haversine `d` of the
central angle, with its own Earth-radius constant. -/
noncomputable def haversineMeters (lat1 lon1 lat2 lon2 : ℝ) : ℝ :=
  2 * (AVG_EARTH_RADIUS_METERS : ℝ) *
    Real.arcsin (Real.sqrt (hav lat1 lon1 lat2 lon2))

/-- Two-argument arctangent with the standard math-library convention,
used to state the spec formula `c = 2·atan2(√a, √(1−a))`. -/
noncomputable def atan2 (y x : ℝ) : ℝ :=
  if 0 < x then Real.arctan (y / x)
  else if x < 0 then
    if 0 ≤ y then Real.arctan (y / x) + Real.pi
    else Real.arctan (y / x) - Real.pi
  else
    if 0 < y then Real.pi / 2
    else if y < 0 then -(Real.pi / 2)
    else 0

/-- The spec §4.2 distance formula, stated with the same Earth-radius
constant as the reference library (the spec allows either constant):
`distance = R · c` with `c = 2·atan2(√a, √(1−a))`. -/
noncomputable def specHaversineMeters (lat1 lon1 lat2 lon2 : ℝ) : ℝ :=
  (AVG_EARTH_RADIUS_METERS : ℝ) *
    (2 * atan2 (Real.sqrt (hav lat1 lon1 lat2 lon2))
      (Real.sqrt (1 - hav lat1 lon1 lat2 lon2)))

/-- The distance-vs-threshold branch of `app.py` lines 222-231: success
(with the distance in the message) when `distance <= LOCATION_RADIUS_METERS`,
failure otherwise; both HTTP 200. -/
noncomputable def locDecide (d : ℝ) : Response :=
  if d ≤ (LOCATION_RADIUS_METERS : ℝ) then ⟨Status.success, 200, Msg.locationVerified d⟩
  else ⟨Status.failure, 200, Msg.attendanceDenied d⟩

/-- The `/verify-location` handler (`app.py` lines 203-231).  `pf` is the
runtime semantics of `float()` on strings.  The first component is the
returned response, or `Except.error` when an uncaught exception escapes
(the `float()` calls are the only fallible step and are not guarded);
the second records which effects the run performed. -/
noncomputable def handle_verify_location (pf : String → Option ℚ) (req : LocRequest) :
    Except PyExn Response × List Effect :=
  if truthy req.class_id && truthy req.latitude && truthy req.longitude then
    match lookupClass req.class_id with
    | none => (Except.ok ⟨Status.error, 404, Msg.classNotFound req.class_id⟩,
        [Effect.registryLookup])
    | some info =>
      match floatConv pf req.latitude, floatConv pf req.longitude with
      | some ulat, some ulon =>
        (Except.ok (locDecide (haversineMeters info.lat info.lon ulat ulon)),
          [Effect.registryLookup, Effect.distanceComputation])
      | _, _ => (Except.error PyExn.valueError, [Effect.registryLookup])
  else
    (Except.ok ⟨Status.error, 400, Msg.missingLocationData⟩, [])

/-- Modelled from the spec: the integer number of hundredths a real
distance renders to under the two-decimal formatting `{d:.2f}` of the
response messages; the message reports a distance of `0.00` meters exactly
when this value is `0`. -/
noncomputable def centsValue (d : ℝ) : ℤ := round (100 * d)

/-- Python `s.split(",", 1)` as used on `app.py` line 247, on a string
given as a character list: `none` when the string has no comma (in which
case the two-name unpacking raises `ValueError`), otherwise the part
before the first comma and everything after it. -/
def splitFirstComma : List Char → Option (List Char × List Char)
  | [] => none
  | c :: rest =>
    if c = ',' then some ([], rest)
    else (splitFirstComma rest).map (fun p => (c :: p.1, p.2))

/-- The environment of one `/verify-face` call: the semantics of
`base64.b64decode` (`false` meaning it raises on that input), the fresh
`uuid4` stem for the temporary filename, whether the file write succeeds,
and the outcome of `DeepFace.verify` (`Except.error` meaning it raises,
otherwise the boolean `result["verified"]`). -/
structure FaceOracle where
  b64ok : List Char → Bool
  freshName : String
  writeOk : Bool
  verify : Except Unit Bool

/-- The temporary file path `f"{uuid.uuid4()}.jpg"` of `app.py` line 249. -/
def tempPath (o : FaceOracle) : String := o.freshName ++ ".jpg"

/-- The `try` block of `handle_verify_face` (`app.py` lines 246-258):
split the payload on the first comma (raising when there is none), base64
decode, create and write the temporary file, and call `DeepFace.verify`.
Returns the outcome of the block (`Except.error` = an exception was
raised), the value of `captured_img_path`, and the filesystem state. -/
def faceTryBody (o : FaceOracle) (img : List Char) (fs : Finset String) :
    Except Unit Bool × String × Finset String :=
  match splitFirstComma img with
  | none => (Except.error (), "", fs)
  | some pr =>
    if o.b64ok pr.2 then
      let fs1 := insert (tempPath o) fs
      if o.writeOk then
        match o.verify with
        | Except.error _ => (Except.error (), tempPath o, fs1)
        | Except.ok b => (Except.ok b, tempPath o, fs1)
      else (Except.error (), tempPath o, fs1)
    else (Except.error (), "", fs)

/-- The `finally` clause of `app.py` lines 268-270: delete
`captured_img_path` when that path exists. -/
def faceFinally (path : String) (fs : Finset String) : Finset String :=
  if path ∈ fs then fs.erase path else fs

/-- The response produced from the outcome of the `try` block: the
matched/not-matched envelopes of `app.py` lines 260-263, or the `except`
clause envelope of line 267. -/
def faceRespOf : Except Unit Bool → Response
  | Except.ok true => ⟨Status.success, 200, Msg.faceVerified⟩
  | Except.ok false => ⟨Status.failure, 200, Msg.faceNoMatch⟩
  | Except.error _ => ⟨Status.error, 500, Msg.couldNotProcess⟩

/-- The `/verify-face` handler (`app.py` lines 233-270).  The state is the
set of existing file paths; the result pairs the response with the final
state.  `captured_img_path` is `""` until `app.py` line 249 assigns it,
so the `finally` clause on an early exception tests the empty path. -/
def handle_verify_face (o : FaceOracle) (image : Option (List Char)) (fs : Finset String) :
    Response × Finset String :=
  match image with
  | none => (⟨Status.error, 400, Msg.noImageData⟩, fs)
  | some img =>
    if img = [] then (⟨Status.error, 400, Msg.noImageData⟩, fs)
    else if REFERENCE_IMG_PATH ∈ fs then
      (faceRespOf (faceTryBody o img fs).1,
        faceFinally (faceTryBody o img fs).2.1 (faceTryBody o img fs).2.2)
    else (⟨Status.error, 500, Msg.referenceMissing⟩, fs)

/-! ### Location handler: helper lemmas -/

/-- The branch of `locDecide` is exactly the threshold comparison. -/
theorem locDecide_status_iff (d : ℝ) :
    (locDecide d).status = Status.success ↔ d ≤ (LOCATION_RADIUS_METERS : ℝ) := by
  unfold locDecide
  by_cases h : d ≤ (LOCATION_RADIUS_METERS : ℝ) <;> simp [h]

/-- The distance from any point to itself is zero. -/
theorem haversineMeters_self (lat lon : ℝ) : haversineMeters lat lon lat lon = 0 := by
  simp [haversineMeters, hav]

/-! ### Claim theorems: location path -/

/-- C1: for every location request that passes field validation, class
lookup, and coordinate parsing, the returned decision has status success
if and only if the computed distance is at most `LOCATION_RADIUS_METERS`;
in particular a distance exactly equal to the threshold yields success,
since the code compares with `<=`. -/
theorem location_success_iff_within_threshold
    (pf : String → Option ℚ) (req : LocRequest) (info : ClassInfo) (ulat ulon : ℚ)
    (hv : (truthy req.class_id && truthy req.latitude && truthy req.longitude) = true)
    (hc : lookupClass req.class_id = some info)
    (hlat : floatConv pf req.latitude = some ulat)
    (hlon : floatConv pf req.longitude = some ulon) :
    ∃ r : Response,
      (handle_verify_location pf req).1 = Except.ok r ∧
        (r.status = Status.success ↔
          haversineMeters info.lat info.lon ulat ulon ≤ (LOCATION_RADIUS_METERS : ℝ)) := by
  refine ⟨locDecide (haversineMeters info.lat info.lon ulat ulon), ?_, locDecide_status_iff _⟩
  simp [handle_verify_location, hv, hc, hlat, hlon]

/-- Witness for C1: the registered `CS101` request with the user at the
class point passes every hypothesis. -/
theorem location_success_iff_within_threshold_witness :
    ∃ r : Response,
      (handle_verify_location (fun _ => none)
          ⟨JVal.str "CS101", JVal.num 16.7953091, JVal.num 80.8228997⟩).1 = Except.ok r ∧
        (r.status = Status.success ↔
          haversineMeters ((16.7953091 : ℚ) : ℝ) ((80.8228997 : ℚ) : ℝ)
              ((16.7953091 : ℚ) : ℝ) ((80.8228997 : ℚ) : ℝ) ≤
            (LOCATION_RADIUS_METERS : ℝ)) :=
  location_success_iff_within_threshold (fun _ => none)
    ⟨JVal.str "CS101", JVal.num 16.7953091, JVal.num 80.8228997⟩
    ⟨"Computer Science Building, Room 101", 16.7953091, 80.8228997⟩
    16.7953091 80.8228997 (by norm_num [truthy]; decide)
    (by simp [lookupClass, CLASS_LOCATIONS, List.lookup]) rfl rfl

/-- C5: a validated request whose class id is not in the registry yields
the HTTP 404 error envelope, and the returned status is never success or
failure. -/
theorem location_unknown_class_404
    (pf : String → Option ℚ) (req : LocRequest)
    (hv : (truthy req.class_id && truthy req.latitude && truthy req.longitude) = true)
    (hc : lookupClass req.class_id = none) :
    handle_verify_location pf req =
        (Except.ok ⟨Status.error, 404, Msg.classNotFound req.class_id⟩, [Effect.registryLookup]) ∧
      ∀ r : Response, (handle_verify_location pf req).1 = Except.ok r →
        r.status ≠ Status.success ∧ r.status ≠ Status.failure := by
  have h1 : handle_verify_location pf req =
      (Except.ok ⟨Status.error, 404, Msg.classNotFound req.class_id⟩, [Effect.registryLookup]) := by
    simp [handle_verify_location, hv, hc]
  refine ⟨h1, fun r hr => ?_⟩
  rw [h1] at hr
  simp only [Except.ok.injEq] at hr
  subst hr
  exact ⟨by simp, by simp⟩

/-- Witness for C5: an unknown class id `"NOPE"` with truthy coordinates. -/
theorem location_unknown_class_404_witness :
    handle_verify_location (fun _ => none) ⟨JVal.str "NOPE", JVal.num 1, JVal.num 1⟩ =
        (Except.ok ⟨Status.error, 404, Msg.classNotFound (JVal.str "NOPE")⟩,
          [Effect.registryLookup]) ∧
      ∀ r : Response,
        (handle_verify_location (fun _ => none)
            ⟨JVal.str "NOPE", JVal.num 1, JVal.num 1⟩).1 = Except.ok r →
          r.status ≠ Status.success ∧ r.status ≠ Status.failure :=
  location_unknown_class_404 (fun _ => none) ⟨JVal.str "NOPE", JVal.num 1, JVal.num 1⟩
    (by decide) (by decide)

/-- C6: when the three fields fail Python truthiness validation, the
handler returns the HTTP 400 error envelope with an empty effect list:
no registry lookup and no distance computation took place. -/
theorem location_missing_fields_400
    (pf : String → Option ℚ) (req : LocRequest)
    (hv : (truthy req.class_id && truthy req.latitude && truthy req.longitude) = false) :
    handle_verify_location pf req =
      (Except.ok ⟨Status.error, 400, Msg.missingLocationData⟩, []) := by
  simp [handle_verify_location, hv]

/-- Witness for C6: a request with a missing class id. -/
theorem location_missing_fields_400_witness :
    handle_verify_location (fun _ => none) ⟨JVal.null, JVal.num 1, JVal.num 1⟩ =
      (Except.ok ⟨Status.error, 400, Msg.missingLocationData⟩, []) :=
  location_missing_fields_400 (fun _ => none) ⟨JVal.null, JVal.num 1, JVal.num 1⟩ (by decide)

/-- C7: when validation and class lookup pass but `float()` fails on the
latitude or the longitude, the handler raises (`ValueError` escapes) and
no response envelope of any status is returned. -/
theorem location_parse_failure_raises
    (pf : String → Option ℚ) (req : LocRequest) (info : ClassInfo)
    (hv : (truthy req.class_id && truthy req.latitude && truthy req.longitude) = true)
    (hc : lookupClass req.class_id = some info)
    (hp : floatConv pf req.latitude = none ∨ floatConv pf req.longitude = none) :
    handle_verify_location pf req = (Except.error PyExn.valueError, [Effect.registryLookup]) := by
  rcases hp with hp | hp
  · simp [handle_verify_location, hv, hc, hp]
  · cases h2 : floatConv pf req.latitude <;>
      simp [handle_verify_location, hv, hc, hp, h2]

/-- Witness for C7: a `CS101` request whose latitude is the unparseable
string `"abc"`. -/
theorem location_parse_failure_raises_witness :
    handle_verify_location (fun _ => none)
        ⟨JVal.str "CS101", JVal.str "abc", JVal.num 1⟩ =
      (Except.error PyExn.valueError, [Effect.registryLookup]) :=
  location_parse_failure_raises (fun _ => none)
    ⟨JVal.str "CS101", JVal.str "abc", JVal.num 1⟩
    ⟨"Computer Science Building, Room 101", 16.7953091, 80.8228997⟩
    (by decide) (by simp [lookupClass, CLASS_LOCATIONS, List.lookup]) (Or.inl rfl)

/-- C10: a numeric latitude or longitude equal to `0` is falsy in Python,
so the handler rejects the request with the missing-fields HTTP 400 error
even though `0` is a valid coordinate, whatever the other fields hold. -/
theorem location_zero_coordinate_rejected :
    (∀ (pf : String → Option ℚ) (cid lon : JVal),
        handle_verify_location pf ⟨cid, JVal.num 0, lon⟩ =
          (Except.ok ⟨Status.error, 400, Msg.missingLocationData⟩, [])) ∧
    (∀ (pf : String → Option ℚ) (cid lat : JVal),
        handle_verify_location pf ⟨cid, lat, JVal.num 0⟩ =
          (Except.ok ⟨Status.error, 400, Msg.missingLocationData⟩, [])) := by
  constructor <;> intro pf cid v <;> simp [handle_verify_location, truthy]

/-- C9: the distance from any point to itself is zero, and concretely a
request for `CS101` with the user at the registered class point
(16.7953091, 80.8228997) succeeds with a reported distance of `0`, which
the two-decimal formatting renders as `0.00` meters. -/
theorem location_identical_points_success :
    (∀ lat lon : ℝ, haversineMeters lat lon lat lon = 0) ∧
      handle_verify_location (fun _ => none)
          ⟨JVal.str "CS101", JVal.num 16.7953091, JVal.num 80.8228997⟩ =
        (Except.ok ⟨Status.success, 200, Msg.locationVerified 0⟩,
          [Effect.registryLookup, Effect.distanceComputation]) ∧
      centsValue 0 = 0 := by
  refine ⟨haversineMeters_self, ?_, by simp [centsValue]⟩
  have hthr : (0 : ℝ) ≤ (LOCATION_RADIUS_METERS : ℝ) := by
    norm_num [LOCATION_RADIUS_METERS]
  norm_num [handle_verify_location, truthy, lookupClass, CLASS_LOCATIONS, List.lookup,
    floatConv, locDecide]
  simp only [haversineMeters_self]
  rw [if_neg (show ¬("CS101" = "") by decide), if_pos hthr]

/-! ### Face handler: helper lemmas -/

/-- A path absent from the filesystem stays absent through the `finally`
clause. -/
theorem not_mem_faceFinally {p : String} {fs : Finset String} (q : String) (h : p ∉ fs) :
    p ∉ faceFinally q fs := by
  unfold faceFinally
  split
  · exact fun hm => h (Finset.mem_of_mem_erase hm)
  · exact h

/-- The `finally` clause always deletes the path it is given once that
path has been created. -/
theorem not_mem_faceFinally_self (p : String) (fs : Finset String) :
    p ∉ faceFinally p (insert p fs) := by
  unfold faceFinally
  rw [if_pos (Finset.mem_insert_self p fs)]
  exact Finset.not_mem_erase p _

/-- After the `try` body and the `finally` clause, a fresh temporary path
never remains on disk, whichever steps of the body failed. -/
theorem faceTryBody_temp_gone (o : FaceOracle) (img : List Char) (fs : Finset String)
    (h : tempPath o ∉ fs) :
    tempPath o ∉ faceFinally (faceTryBody o img fs).2.1 (faceTryBody o img fs).2.2 := by
  unfold faceTryBody
  cases hsp : splitFirstComma img with
  | none => exact not_mem_faceFinally _ h
  | some pr =>
    dsimp only
    by_cases hb : o.b64ok pr.2
    · rw [if_pos hb]
      by_cases hw : o.writeOk
      · rw [if_pos hw]
        cases o.verify with
        | error e => exact not_mem_faceFinally_self _ _
        | ok b => exact not_mem_faceFinally_self _ _
      · rw [if_neg hw]
        exact not_mem_faceFinally_self _ _
    · rw [if_neg hb]
      exact not_mem_faceFinally _ h

/-- Reduction of the face handler once the two validation gates pass. -/
theorem handle_verify_face_eq (o : FaceOracle) (img : List Char) (fs : Finset String)
    (hne : img ≠ []) (href : REFERENCE_IMG_PATH ∈ fs) :
    handle_verify_face o (some img) fs =
      (faceRespOf (faceTryBody o img fs).1,
        faceFinally (faceTryBody o img fs).2.1 (faceTryBody o img fs).2.2) := by
  simp [handle_verify_face, hne, href]

/-- A comma-free payload makes the destructuring split raise. -/
theorem splitFirstComma_eq_none {l : List Char} (h : ',' ∉ l) : splitFirstComma l = none := by
  induction l with
  | nil => rfl
  | cons c rest ih =>
    unfold splitFirstComma
    have hcne : ¬(c = ',') := by
      intro hc
      exact h (by rw [hc]; exact List.mem_cons_self ',' rest)
    rw [if_neg hcne, ih fun hm => h (List.mem_cons_of_mem c hm)]
    rfl

/-! ### Claim theorems: face path -/

/-- C3: whatever the request payload and the outcomes of decoding, file
writing and the external verification call, the temporary file of a
face-verification request does not exist once the response is returned,
provided its fresh name did not already denote an existing file. -/
theorem face_temp_file_deleted (o : FaceOracle) (image : Option (List Char))
    (fs : Finset String) (h : tempPath o ∉ fs) :
    tempPath o ∉ (handle_verify_face o image fs).2 := by
  cases image with
  | none => exact h
  | some img =>
    by_cases hne : img = []
    · simpa [handle_verify_face, hne] using h
    · by_cases href : REFERENCE_IMG_PATH ∈ fs
      · rw [handle_verify_face_eq o img fs hne href]
        exact faceTryBody_temp_gone o img fs h
      · simpa [handle_verify_face, hne, href] using h

/-- Witness for C3: a fully successful verification run on a well-formed
payload; the temporary file `captured.jpg` is gone afterwards. -/
theorem face_temp_file_deleted_witness :
    tempPath ⟨fun _ => true, "captured", true, Except.ok true⟩ ∉
        ({REFERENCE_IMG_PATH} : Finset String) ∧
      tempPath ⟨fun _ => true, "captured", true, Except.ok true⟩ ∉
        (handle_verify_face ⟨fun _ => true, "captured", true, Except.ok true⟩
            (some ['d', ',', 'x']) ({REFERENCE_IMG_PATH} : Finset String)).2 :=
  ⟨by decide, face_temp_file_deleted _ _ _ (by decide)⟩

/-- C4: when the external verification call is reached and returns, the
face handler emits success exactly for a matched result and failure
otherwise; and when any step of the try block raises — comma split,
base64 decode, file write, or the external call — it emits the HTTP 500
could-not-process error envelope. -/
theorem face_outcomes (o : FaceOracle) (img : List Char) (fs : Finset String)
    (hne : img ≠ []) (href : REFERENCE_IMG_PATH ∈ fs) :
    (∀ pr b, splitFirstComma img = some pr → o.b64ok pr.2 = true → o.writeOk = true →
      o.verify = Except.ok b →
      (handle_verify_face o (some img) fs).1 =
        if b then (⟨Status.success, 200, Msg.faceVerified⟩ : Response)
        else ⟨Status.failure, 200, Msg.faceNoMatch⟩) ∧
    ((splitFirstComma img = none ∨
        (∃ pr, splitFirstComma img = some pr ∧ o.b64ok pr.2 = false) ∨
        o.writeOk = false ∨ o.verify = Except.error ()) →
      (handle_verify_face o (some img) fs).1 =
        ⟨Status.error, 500, Msg.couldNotProcess⟩) := by
  rw [handle_verify_face_eq o img fs hne href]
  constructor
  · intro pr b hsp hb hw hv
    unfold faceTryBody
    rw [hsp]
    dsimp only
    rw [if_pos hb, if_pos hw, hv]
    cases b <;> rfl
  · intro hfail
    unfold faceTryBody
    cases hsp : splitFirstComma img with
    | none => rfl
    | some pr =>
      dsimp only
      by_cases hb : o.b64ok pr.2
      · rw [if_pos hb]
        by_cases hw : o.writeOk
        · rw [if_pos hw]
          cases hv : o.verify with
          | error e => rfl
          | ok b =>
            exfalso
            rcases hfail with hf | ⟨pr2, hsp2, hb2⟩ | hf | hf
            · rw [hsp] at hf; exact Option.noConfusion hf
            · rw [hsp] at hsp2
              rw [Option.some.injEq] at hsp2
              rw [← hsp2] at hb2
              rw [hb] at hb2
              exact Bool.noConfusion hb2
            · rw [hw] at hf; exact Bool.noConfusion hf
            · rw [hv] at hf; exact Except.noConfusion hf
        · rw [if_neg hw]; rfl
      · rw [if_neg hb]; rfl

/-- Witness for C4: a run whose steps all succeed with a matched result
yields the success envelope. -/
theorem face_outcomes_witness :
    (handle_verify_face ⟨fun _ => true, "captured", true, Except.ok true⟩
        (some ['d', ',', 'x']) ({REFERENCE_IMG_PATH} : Finset String)).1 =
      ⟨Status.success, 200, Msg.faceVerified⟩ := by
  have h := face_outcomes ⟨fun _ => true, "captured", true, Except.ok true⟩
    ['d', ',', 'x'] ({REFERENCE_IMG_PATH} : Finset String) (by decide) (by decide)
  simpa using h.1 (['d'], ['x']) true rfl rfl rfl rfl

/-- C8: a truthy payload with no comma separator makes the destructuring
split raise, so the handler returns the HTTP 500 error envelope, and the
filesystem is exactly as before: no temporary file was created or left
behind. -/
theorem face_no_comma_error (o : FaceOracle) (img : List Char) (fs : Finset String)
    (hne : img ≠ []) (href : REFERENCE_IMG_PATH ∈ fs) (hnc : ',' ∉ img)
    (hes : "" ∉ fs) :
    handle_verify_face o (some img) fs =
      (⟨Status.error, 500, Msg.couldNotProcess⟩, fs) := by
  rw [handle_verify_face_eq o img fs hne href]
  unfold faceTryBody
  rw [splitFirstComma_eq_none hnc]
  simp [faceRespOf, faceFinally, hes]

/-- Witness for C8: the comma-free payload `"ab"`. -/
theorem face_no_comma_error_witness :
    handle_verify_face ⟨fun _ => true, "captured", true, Except.ok true⟩
        (some ['a', 'b']) ({REFERENCE_IMG_PATH} : Finset String) =
      (⟨Status.error, 500, Msg.couldNotProcess⟩, ({REFERENCE_IMG_PATH} : Finset String)) :=
  face_no_comma_error ⟨fun _ => true, "captured", true, Except.ok true⟩ ['a', 'b']
    ({REFERENCE_IMG_PATH} : Finset String) (by decide) (by decide) (by decide) (by decide)

/-! ### Distance formula: the library computation matches the spec formula -/

/-- A latitude within the GeoPoint invariant converts to a radian angle in
the closed quarter-turn interval. -/
theorem radians_mem_Icc {lat : ℝ} (h1 : -90 ≤ lat) (h2 : lat ≤ 90) :
    radians lat ∈ Set.Icc (-(Real.pi / 2)) (Real.pi / 2) := by
  have hpi := Real.pi_pos
  refine Set.mem_Icc.mpr ⟨?_, ?_⟩
  · unfold radians
    nlinarith [mul_nonneg (by linarith : (0 : ℝ) ≤ lat + 90) hpi.le]
  · unfold radians
    nlinarith [mul_nonneg (by linarith : (0 : ℝ) ≤ 90 - lat) hpi.le]

/-- Cosine of an in-range latitude is nonnegative. -/
theorem cos_radians_nonneg {lat : ℝ} (h1 : -90 ≤ lat) (h2 : lat ≤ 90) :
    0 ≤ Real.cos (radians lat) :=
  Real.cos_nonneg_of_mem_Icc (radians_mem_Icc h1 h2)

/-- The haversine of the central angle is nonnegative for in-range
latitudes. -/
theorem hav_nonneg (lat1 lon1 lat2 lon2 : ℝ) (ha : -90 ≤ lat1) (hb : lat1 ≤ 90)
    (hc : -90 ≤ lat2) (hd : lat2 ≤ 90) : 0 ≤ hav lat1 lon1 lat2 lon2 := by
  unfold hav
  have c1 := cos_radians_nonneg ha hb
  have c2 := cos_radians_nonneg hc hd
  exact add_nonneg (sq_nonneg _) (mul_nonneg (mul_nonneg c1 c2) (sq_nonneg _))

/-- The haversine of the central angle is at most one for in-range
latitudes. -/
theorem hav_le_one (lat1 lon1 lat2 lon2 : ℝ) (ha : -90 ≤ lat1) (hb : lat1 ≤ 90)
    (hc : -90 ≤ lat2) (hd : lat2 ≤ 90) : hav lat1 lon1 lat2 lon2 ≤ 1 := by
  unfold hav
  have c1 := cos_radians_nonneg ha hb
  have c2 := cos_radians_nonneg hc hd
  have h2x : 2 * ((radians lat2 - radians lat1) / 2) = radians lat2 - radians lat1 := by ring
  have hs : Real.sin ((radians lat2 - radians lat1) / 2) ^ 2 =
      1 / 2 - Real.cos (radians lat2 - radians lat1) / 2 := by
    rw [Real.sin_sq_eq_half_sub, h2x]
  have ht : Real.sin ((radians lon2 - radians lon1) / 2) ^ 2 ≤ 1 := Real.sin_sq_le_one _
  have hub : Real.cos (radians lat1) * Real.cos (radians lat2) -
      Real.sin (radians lat1) * Real.sin (radians lat2) ≤ 1 := by
    have hle := Real.cos_le_one (radians lat1 + radians lat2)
    rw [Real.cos_add] at hle
    linarith
  rw [hs, Real.cos_sub]
  nlinarith [mul_nonneg c1 c2,
    mul_le_mul_of_nonneg_left ht (mul_nonneg c1 c2)]

/-- For a haversine value in `[0, 1]`, the library form `asin(√a)` agrees
with the spec form `atan2(√a, √(1−a))` of the half central angle. -/
theorem arcsin_sqrt_eq_atan2 {a : ℝ} (h0 : 0 ≤ a) (h1 : a ≤ 1) :
    Real.arcsin (Real.sqrt a) = atan2 (Real.sqrt a) (Real.sqrt (1 - a)) := by
  rcases lt_or_eq_of_le h1 with hlt | heq
  · have hx : 0 < Real.sqrt (1 - a) := Real.sqrt_pos.mpr (by linarith)
    unfold atan2
    rw [if_pos hx]
    have hmem : Real.sqrt a ∈ Set.Ioo (-(1 : ℝ)) 1 := by
      refine Set.mem_Ioo.mpr ⟨?_, ?_⟩
      · have := Real.sqrt_nonneg a
        linarith
      · exact (Real.sqrt_lt' one_pos).mpr (by simpa using hlt)
    rw [Real.arcsin_eq_arctan hmem, Real.sq_sqrt h0]
  · subst heq
    norm_num [atan2, Real.arcsin_one]

/-- C2: for all GeoPoints satisfying the latitude invariant, the distance
the location decision uses (the modelled reference-library computation
`2·R·asin(√a)`) equals the spec §4.2 haversine formula `R·2·atan2(√a,
√(1−a))` with the same Earth-radius constant. -/
theorem distance_matches_spec_formula (lat1 lon1 lat2 lon2 : ℝ)
    (ha : -90 ≤ lat1) (hb : lat1 ≤ 90) (hc : -90 ≤ lat2) (hd : lat2 ≤ 90) :
    haversineMeters lat1 lon1 lat2 lon2 = specHaversineMeters lat1 lon1 lat2 lon2 := by
  unfold haversineMeters specHaversineMeters
  rw [arcsin_sqrt_eq_atan2 (hav_nonneg lat1 lon1 lat2 lon2 ha hb hc hd)
    (hav_le_one lat1 lon1 lat2 lon2 ha hb hc hd)]
  ring

/-- Witness for C2: the two formulas agree at the origin point pair. -/
theorem distance_matches_spec_formula_witness :
    haversineMeters 0 0 0 0 = specHaversineMeters 0 0 0 0 :=
  distance_matches_spec_formula 0 0 0 0 (by norm_num) (by norm_num)
    (by norm_num) (by norm_num)

end FLP
